import Mathlib

/-!
sgs-contact-notifier: shallow embedding and verification

Embedding of the Go program `main.go` of josedh/sgs-contact-notifier
(a poll-and-notify loop that reads unacknowledged contact rows from a
postgres table and relays each as a text message via the Twilio REST API).

The source file contains two variants of the program.  The second
variant (the one the specification describes) adds a business-hours
schedule gate, reads the sender/recipient numbers from the environment,
references the contact id in the message template, and checks the HTTP
status of the Twilio response.  The first variant's `sendToPOC` begins
with an unconditional `return nil`, making the rest of its body
unreachable.  Both are embedded below where a claim needs them.

Effects (database query, HTTP POST, sleep, log lines) are modelled as an
explicit event trace.  A Go runtime panic (which kills the process,
since the program installs no `recover`) is modelled by an `Option`
result of `none`: a panicking computation still produces the trace of
the events that happened before the panic.
-/

namespace SgsNotifier

/-- The `contact` struct (rows of the `contacts` table), as declared in
`main.go`.  `time.Time` fields are modelled as unix seconds. -/
structure Contact where
  ID : String
  Name : String
  Email : String
  Phone : String
  Message : String
  CaptchaScore : String
  Acknowledged : Bool
  CreatedOn : Int
  UpdatedOn : Int
deriving DecidableEq, Repr

/-- `func (c contact) String() string`. -/
def Contact.str (c : Contact) : String :=
  "Contact name: " ++ c.Name ++ ", email: " ++ c.Email ++ ", phone: " ++ c.Phone

/-- Database operations.  The program only ever issues a `SELECT`; the
`update` constructor exists so that "the store is never mutated" is a
statement with content, not one true by the shape of the type. -/
inductive DbOp where
  | select (wherePred : Contact → Bool)
  | update (f : Contact → Contact)

/-- Semantics of a database operation on the table state: a `SELECT` is
read-only, an `UPDATE` rewrites every row. -/
def applyDbOp : DbOp → List Contact → List Contact
  | DbOp.select _, s => s
  | DbOp.update f, s => s.map f

/-- The rows a `select` returns from the table state. -/
def selectRows (p : Contact → Bool) (s : List Contact) : List Contact :=
  s.filter p

/-- The WHERE clause of the one query the program issues:
`WHERE acknowledged = false`. -/
def unackWhere (c : Contact) : Bool :=
  c.Acknowledged == false

/-- Observable effects of a cycle, in order. -/
inductive Event where
  | db (op : DbOp)
  | httpPost (url : String) (body : String)
  | sleep (seconds : Nat)
  | log (msg : String)

/-- The database operations appearing in a trace. -/
def dbOpsOf (evs : List Event) : List DbOp :=
  evs.filterMap fun e =>
    match e with
    | Event.db op => some op
    | _ => none

/-- The table state after the database operations of a trace run. -/
def applyEvents (evs : List Event) (s : List Contact) : List Contact :=
  (dbOpsOf evs).foldl (fun st op => applyDbOp op st) s

/-- Whether an event is an HTTP POST (a send attempt to the messaging API). -/
def isSend (e : Event) : Bool :=
  match e with
  | Event.httpPost _ _ => true
  | _ => false

/-- Number of send attempts (HTTP POSTs) in a trace. -/
def sendCount (evs : List Event) : Nat :=
  (evs.filter isSend).length

/-- The sub-trace of send attempts (HTTP POSTs) of a trace. -/
def sends (evs : List Event) : List Event :=
  evs.filter isSend

/-! ## Schedule gate (second variant, `main`, lines 205–228)

The loop body computes `currTime := time.Now()`, builds the instants
`start` (09:00:00) and `end` (15:00:00) of `currTime`'s calendar day via
`time.Date(..., loc)` with `loc` the named zone `America/New_York`, and
skips the cycle when `currTime.Before(start) || currTime.After(end) ||
weekday == Saturday || weekday == Sunday`.

The deployment runs the process in the configured zone, so the calendar
day, weekday and wall clock of `currTime` are those of the configured
zone; comparing the instant `currTime` against the same-day instants
`start`/`end` is then exactly comparing the wall-clock second-of-day
against 09:00:00 and 15:00:00 (the zone offset in effect is constant
between those wall clocks on any one day: New York changes offset only
at 02:00 on Sundays, and on those transition dates the weekday test
already skips the cycle).  An instant is therefore embedded by its
local weekday and second-of-day in the configured zone. -/

/-- A current instant, seen as local wall-clock data in the configured
zone: `weekday` uses Go's numbering (`0 = Sunday`, ..., `6 = Saturday`)
and `secOfDay` is the wall-clock second since local midnight. -/
structure LocalTime where
  weekday : Nat
  secOfDay : Nat
deriving DecidableEq, Repr

/-- `09:00:00` as a second-of-day (the window's start hour). -/
def startSec : Nat := 9 * 3600

/-- `15:00:00` as a second-of-day (the window's end hour). -/
def endSec : Nat := 15 * 3600

/-- The skip condition of the loop body:
`currTime.Before(start) || currTime.After(end) || Saturday || Sunday`. -/
def skipNotifications (t : LocalTime) : Bool :=
  decide (t.secOfDay < startSec) || decide (t.secOfDay > endSec) ||
    (t.weekday == 6) || (t.weekday == 0)

/-- The schedule gate: the cycle runs iff the skip condition fails. -/
def scheduleGate (t : LocalTime) : Bool :=
  !(skipNotifications t)

/-! ## Message formatting (second variant, `formatMessage`, lines 291–301) -/

/-- Environment configuration read by `formatMessage`. -/
structure Env where
  twilioFrom : String
  twilioTo : String
deriving DecidableEq, Repr

/-- `fmt.Sprintf` restricted to the `%s` verb, which is the only verb the
format templates of the program use: each `%s` consumes the next
argument, every other character is copied. -/
def sprintfS : List Char → List String → List Char
  | [], _ => []
  | '%' :: 's' :: rest, a :: args => a.toList ++ sprintfS rest args
  | '%' :: 's' :: rest, [] => "%!s(MISSING)".toList ++ sprintfS rest []
  | ch :: rest, args => ch :: sprintfS rest args

/-- The format template `msgToPOC` of the second variant, written as in
the source (three concatenated literals; note there is no space between
the phone-number clause and "for the following reason"). -/
def msgToPOC : String :=
  "We are being contacted by '%s' with email: '%s' and phone number '%s'" ++
    "for the following reason: '%s'.\n" ++
    "Please acknowledged receipt of this contact by replying '%s' to this message."

/-- The `Body` value of the formatted message: the template applied to
name, email, phone, message and id, in that order. -/
def messageBody (c : Contact) : String :=
  ⟨sprintfS msgToPOC.toList [c.Name, c.Email, c.Phone, c.Message, c.ID]⟩

/-- UTF-8 encoding of one character, as the byte values Go's
`url.QueryEscape` operates on. -/
def utf8Bytes (c : Char) : List Nat :=
  let n := c.toNat
  if n < 128 then [n]
  else if n < 2048 then [192 + n / 64, 128 + n % 64]
  else if n < 65536 then [224 + n / 4096, 128 + (n / 64) % 64, 128 + n % 64]
  else [240 + n / 262144, 128 + (n / 4096) % 64, 128 + (n / 64) % 64, 128 + n % 64]

/-- Upper-case hexadecimal digit, as `net/url` uses for percent-escapes. -/
def hexDigit (n : Nat) : Char :=
  if n < 10 then Char.ofNat (48 + n) else Char.ofNat (55 + n)

/-- A byte `url.QueryEscape` leaves unescaped (alphanumerics and
`-`, `_`, `.`, `~`); a space becomes `+`, every other byte `%XX`. -/
def isUnreservedByte (b : Nat) : Bool :=
  (65 ≤ b && b ≤ 90) || (97 ≤ b && b ≤ 122) || (48 ≤ b && b ≤ 57) ||
    b == 45 || b == 95 || b == 46 || b == 126

/-- Go's `url.QueryEscape`. -/
def queryEscape (s : String) : String :=
  ⟨(s.toList.flatMap utf8Bytes).flatMap fun b =>
    if b == 32 then ['+']
    else if isUnreservedByte b then [Char.ofNat b]
    else ['%', hexDigit (b / 16), hexDigit (b % 16)]⟩

/-- `formatMessage` of the second variant: sets the values `Body`,
`From` (from `TWILIO_FROM_NUMBER`), `To` (from `TWILIO_TO_NUMBER`) and
`provideFeedback=true`, then `url.Values.Encode` emits them sorted by
key (byte order: `Body` < `From` < `To` < `provideFeedback`), each value
query-escaped, joined with `&`. -/
def formatMessage (env : Env) (c : Contact) : String :=
  "Body=" ++ queryEscape (messageBody c) ++
    "&From=" ++ queryEscape env.twilioFrom ++
    "&To=" ++ queryEscape env.twilioTo ++
    "&provideFeedback=true"

/-! ## Notification sender (second variant, `sendToPOC`, lines 262–289)

The HTTP exchange is modelled by an `HttpOutcome` oracle.  The source
discards the error of `client.Do` (`resp, _ := client.Do(req)`) and then
reads `resp.StatusCode`; when `Do` fails at the transport level it
returns a nil response, so that read dereferences a nil pointer and the
process panics — embedded as result `none`. -/

/-- Outcome of one HTTP POST to the messaging API: a transport-level
failure of `client.Do`, or a response with a status code, a status line,
and the result of JSON-decoding its body. -/
inductive HttpOutcome where
  | transportError (msg : String)
  | response (status : Nat) (statusText : String) (bodyDecode : Except String String)

/-- The Twilio endpoint URL built from the account SID. -/
def twilioURL (sid : String) : String :=
  "https://api.twilio.com/2010-04-01/Accounts/" ++ sid ++ "/Messages.json"

/-- `sendToPOC` of the second variant.  The POST is issued, then: on a
transport error the nil response is dereferenced (panic, result
`none`); on a 2xx status the body is decoded for debug logging only and
the result is success; on any other status the result is the
per-contact error built from the status line. -/
def sendToPOC (env : Env) (c : Contact) (sid auth : String) (outcome : HttpOutcome) :
    List Event × Option (Except String Unit) :=
  let post := Event.httpPost (twilioURL sid) (formatMessage env c)
  match outcome with
  | HttpOutcome.transportError _ => ([post], none)
  | HttpOutcome.response status statusText bodyDecode =>
    if 200 ≤ status && status < 300 then
      ([post] ++
        (match bodyDecode with
          | Except.error e =>
            [Event.log ("Failed to parse response after sending message: " ++ e),
             Event.log "Response from sent message: map[]"]
          | Except.ok d => [Event.log ("Response from sent message: " ++ d)]),
       some (Except.ok ()))
    else
      ([post], some (Except.error ("Failed to send message to contact. Issue: " ++ statusText)))

/-- `sendToPOC` of the FIRST variant (lines 104–125): its first
statement is `return nil`, so the request construction below it is
unreachable; it performs no effect and reports success for every input. -/
def sendToPOCv1 (c : Contact) (sid auth : String) (outcome : HttpOutcome) :
    List Event × Option (Except String Unit) :=
  ([], some (Except.ok ()))

/-! ## Check-contacts cycle (second variant, `checkContacts`, lines 233–260) -/

/-- The credential error message of `checkContacts`. -/
def credErrMsg : String :=
  "Invalid twilio credentials, please check those on the server env and try again"

/-- The `for _, r := range res` loop of `checkContacts`: log, send,
log a returned send error, sleep 15 seconds; a panic inside a send
(result `none`) propagates and ends the loop. -/
def notifyLoop (env : Env) (sid auth : String) (world : Contact → HttpOutcome) :
    List Contact → List Event × Option Unit
  | [] => ([], some ())
  | r :: rest =>
    let pre := Event.log ("Contact " ++ r.Name ++ " is unacknowledged, notifying...")
    match sendToPOC env r sid auth (world r) with
    | (evs, none) => (pre :: evs, none)
    | (evs, some res) =>
      let errLog :=
        match res with
        | Except.error e => [Event.log ("Failed to send contact " ++ r.str ++ " to POC: " ++ e)]
        | Except.ok _ => []
      let tail := notifyLoop env sid auth world rest
      (pre :: evs ++ errLog ++ [Event.sleep 15] ++ tail.1, tail.2)

/-- `checkContacts` of the second variant.  `store` is the current table
state, `dbErr` the failure (if any) of `dbx.Select`, `sid`/`auth` the
`TWILIO_ACCOUNT_SID`/`TWILIO_AUTH_TOKEN` values, `world` the HTTP
oracle.  Result `none` models a panic escaping the function. -/
def checkContacts (env : Env) (store : List Contact) (dbErr : Option String)
    (sid auth : String) (world : Contact → HttpOutcome) :
    List Event × Option (Except String Unit) :=
  let qEv := Event.db (DbOp.select unackWhere)
  match dbErr with
  | some e => ([qEv, Event.log e], some (Except.error e))
  | none =>
    if sid == "" || auth == "" then
      ([qEv], some (Except.error credErrMsg))
    else
      let res := selectRows unackWhere store
      match notifyLoop env sid auth world res with
      | (evs, none) => (qEv :: evs, none)
      | (evs, some _) =>
        (qEv :: evs ++ [Event.log "Done sending contacts to sgs owner, returning to idle loop"],
         some (Except.ok ()))

/-! ## One timer tick of the poll loop (second variant, `main`, lines 205–230) -/

/-- One tick of the loop body.  `locOk` is whether
`time.LoadLocation("America/New_York")` succeeded; on failure the error
is logged but execution continues into `time.Date(..., nil)`, which
panics (result `none`).  Otherwise the skip condition is evaluated; a
skipped cycle only logs.  A `checkContacts` error is logged and the loop
returns to idle (`some ()`); a panic propagates (`none`). -/
def tick (env : Env) (locOk : Bool) (t : LocalTime) (store : List Contact)
    (dbErr : Option String) (sid auth : String) (world : Contact → HttpOutcome) :
    List Event × Option Unit :=
  if locOk == false then
    ([Event.log "Failed to load EST location for date data, please contact webmaster"], none)
  else if skipNotifications t then
    ([Event.log "Outside of work hours, skipping notifications"], some ())
  else
    let pre := [Event.log "Checking sgs.com contacts table"]
    match checkContacts env store dbErr sid auth world with
    | (evs, none) => (pre ++ evs, none)
    | (evs, some (Except.error e)) =>
      (pre ++ evs ++ [Event.log ("Failed to check postgres for new contacts on sgs.com: " ++ e)],
       some ())
    | (evs, some (Except.ok _)) => (pre ++ evs, some ())

/-- The connection timeout (seconds) bounding the startup connection
attempt: `context.WithTimeout(context.Background(), 5*time.Second)`. -/
def connTimeoutSeconds : Nat := 5

/-- Process startup: `sqlx.ConnectContext` bounded by
`connTimeoutSeconds`; on error `log.Fatalf` terminates the process
(`none`), otherwise the loop is entered (`some ()`). -/
def startup (connResult : Except String Unit) : Option Unit :=
  match connResult with
  | Except.error _ => none
  | Except.ok _ => some ()

/-! ## Concrete sample data for closed evaluations -/

/-- A sample unacknowledged contact row. -/
def sampleContact1 : Contact :=
  ⟨"id1", "Alice", "alice@example.com", "555-0001", "leak in gutter", "0.9", false, 0, 0⟩

/-- A second sample unacknowledged contact row. -/
def sampleContact2 : Contact :=
  ⟨"id2", "Bob", "bob@example.com", "555-0002", "downspout clogged", "0.8", false, 0, 0⟩

/-- A sample environment (sender and recipient numbers). -/
def sampleEnv : Env := ⟨"12524604466", "12527238360"⟩

/-- An HTTP oracle where every send receives a 201 response. -/
def okWorld : Contact → HttpOutcome :=
  fun _ => HttpOutcome.response 201 "201 Created" (Except.ok "queued")

/-- An HTTP oracle where every send fails at the transport level. -/
def downWorld : Contact → HttpOutcome :=
  fun _ => HttpOutcome.transportError "connection refused"

/-! ## Trace bookkeeping lemmas -/

@[simp] theorem dbOpsOf_nil : dbOpsOf [] = [] := rfl

@[simp] theorem dbOpsOf_cons_db (op : DbOp) (l : List Event) :
    dbOpsOf (Event.db op :: l) = op :: dbOpsOf l := rfl

@[simp] theorem dbOpsOf_cons_log (m : String) (l : List Event) :
    dbOpsOf (Event.log m :: l) = dbOpsOf l := rfl

@[simp] theorem dbOpsOf_cons_sleep (s : Nat) (l : List Event) :
    dbOpsOf (Event.sleep s :: l) = dbOpsOf l := rfl

@[simp] theorem dbOpsOf_cons_post (u b : String) (l : List Event) :
    dbOpsOf (Event.httpPost u b :: l) = dbOpsOf l := rfl

@[simp] theorem dbOpsOf_append (a b : List Event) :
    dbOpsOf (a ++ b) = dbOpsOf a ++ dbOpsOf b := by
  simp [dbOpsOf, List.filterMap_append]

@[simp] theorem sends_nil : sends [] = [] := rfl

@[simp] theorem sends_cons_db (op : DbOp) (l : List Event) :
    sends (Event.db op :: l) = sends l := rfl

@[simp] theorem sends_cons_log (m : String) (l : List Event) :
    sends (Event.log m :: l) = sends l := rfl

@[simp] theorem sends_cons_sleep (s : Nat) (l : List Event) :
    sends (Event.sleep s :: l) = sends l := rfl

@[simp] theorem sends_cons_post (u b : String) (l : List Event) :
    sends (Event.httpPost u b :: l) = Event.httpPost u b :: sends l := rfl

@[simp] theorem sends_append (a b : List Event) :
    sends (a ++ b) = sends a ++ sends b := by
  simp [sends, List.filter_append]

theorem sendCount_eq_length_sends (evs : List Event) :
    sendCount evs = (sends evs).length := rfl

/-- `sendToPOC` issues no database operation. -/
theorem sendToPOC_dbOps (env : Env) (c : Contact) (sid auth : String) (o : HttpOutcome) :
    dbOpsOf (sendToPOC env c sid auth o).1 = [] := by
  cases o with
  | transportError m => rfl
  | response s st bd =>
    simp only [sendToPOC]
    split
    · cases bd <;> rfl
    · rfl

/-- The notify loop issues no database operation. -/
theorem notifyLoop_dbOps (env : Env) (sid auth : String) (world : Contact → HttpOutcome)
    (rows : List Contact) :
    dbOpsOf (notifyLoop env sid auth world rows).1 = [] := by
  induction rows with
  | nil => rfl
  | cons r rest ih =>
    simp only [notifyLoop]
    rcases h : sendToPOC env r sid auth (world r) with ⟨evs, res⟩
    have hevs : dbOpsOf evs = [] := by
      have h2 := sendToPOC_dbOps env r sid auth (world r)
      rw [h] at h2
      exact h2
    cases res with
    | none => simp [hevs]
    | some r2 => cases r2 <;> simp [hevs, ih]

/-- `checkContacts` issues exactly one database operation: the
unacknowledged-rows `SELECT`. -/
theorem checkContacts_dbOps (env : Env) (store : List Contact) (dbErr : Option String)
    (sid auth : String) (world : Contact → HttpOutcome) :
    dbOpsOf (checkContacts env store dbErr sid auth world).1 = [DbOp.select unackWhere] := by
  cases dbErr with
  | some e => rfl
  | none =>
    simp only [checkContacts]
    split
    · rfl
    · rcases h : notifyLoop env sid auth world (selectRows unackWhere store) with ⟨evs, r⟩
      have hevs : dbOpsOf evs = [] := by
        have h2 := notifyLoop_dbOps env sid auth world (selectRows unackWhere store)
        rw [h] at h2
        exact h2
      cases r with
      | none => simp [hevs]
      | some u => simp [hevs]

/-- A tick issues either no database operation (skipped or panicked
before the fetch) or exactly the unacknowledged-rows `SELECT`. -/
theorem tick_dbOps (env : Env) (locOk : Bool) (t : LocalTime) (store : List Contact)
    (dbErr : Option String) (sid auth : String) (world : Contact → HttpOutcome) :
    dbOpsOf (tick env locOk t store dbErr sid auth world).1 = []
    ∨ dbOpsOf (tick env locOk t store dbErr sid auth world).1 = [DbOp.select unackWhere] := by
  rcases hcc : checkContacts env store dbErr sid auth world with ⟨evs, r⟩
  have hevs : dbOpsOf evs = [DbOp.select unackWhere] := by
    have h2 := checkContacts_dbOps env store dbErr sid auth world
    rw [hcc] at h2
    exact h2
  simp only [tick]
  split
  · exact Or.inl rfl
  · split
    · exact Or.inl rfl
    · rw [hcc]
      right
      cases r with
      | none => simp [hevs]
      | some res => cases res <;> simp [hevs]

/-! ## The claims -/

/-- C1: an instant is outside the Monday-to-Friday 09:00–15:00 window in
the configured zone exactly when the schedule gate returns false; on a
gated-out tick the cycle is skipped (only the skip log is emitted — no
fetch, no send — and the loop returns to idle), while on a permitted
tick the fetch query is issued and the sends of the cycle are exactly
those of `checkContacts`. -/
theorem scheduleGate_governs_cycle (t : LocalTime) (env : Env) (store : List Contact)
    (dbErr : Option String) (sid auth : String) (world : Contact → HttpOutcome) :
    (scheduleGate t = false ↔
      (t.secOfDay < startSec ∨ endSec < t.secOfDay ∨ t.weekday = 6 ∨ t.weekday = 0))
    ∧ (scheduleGate t = false →
        tick env true t store dbErr sid auth world =
          ([Event.log "Outside of work hours, skipping notifications"], some ()))
    ∧ (scheduleGate t = true →
        dbOpsOf (tick env true t store dbErr sid auth world).1 = [DbOp.select unackWhere]
        ∧ sends (tick env true t store dbErr sid auth world).1 =
            sends (checkContacts env store dbErr sid auth world).1) := by
  refine ⟨?_, ?_, ?_⟩
  · simp only [scheduleGate, skipNotifications, Bool.not_eq_false', Bool.or_eq_true,
      decide_eq_true_eq, beq_iff_eq, startSec, endSec]
    omega
  · intro hgate
    have hs : skipNotifications t = true := by
      simpa [scheduleGate] using hgate
    simp [tick, hs]
  · intro hgate
    have hs : skipNotifications t = false := by
      simpa [scheduleGate] using hgate
    rcases hcc : checkContacts env store dbErr sid auth world with ⟨evs, r⟩
    have hdb : dbOpsOf evs = [DbOp.select unackWhere] := by
      have h2 := checkContacts_dbOps env store dbErr sid auth world
      rw [hcc] at h2
      exact h2
    cases r with
    | none => constructor <;> simp [tick, hs, hcc, hdb]
    | some res => cases res <;> constructor <;> simp [tick, hs, hcc, hdb]

/-- C1 witness: Saturday 10:00 is gated out and the tick only logs the
skip, while Wednesday 10:00 is permitted and the tick issues the fetch
query. -/
theorem scheduleGate_governs_cycle_witness :
    scheduleGate ⟨6, 36000⟩ = false
    ∧ tick sampleEnv true ⟨6, 36000⟩ [sampleContact1] none "AC1" "tok" okWorld =
        ([Event.log "Outside of work hours, skipping notifications"], some ())
    ∧ scheduleGate ⟨3, 36000⟩ = true
    ∧ dbOpsOf (tick sampleEnv true ⟨3, 36000⟩ [sampleContact1] none "AC1" "tok" okWorld).1 =
        [DbOp.select unackWhere] := by
  refine ⟨by decide, ?_, by decide, ?_⟩
  · exact (scheduleGate_governs_cycle ⟨6, 36000⟩ sampleEnv [sampleContact1] none "AC1" "tok"
      okWorld).2.1 (by decide)
  · exact ((scheduleGate_governs_cycle ⟨3, 36000⟩ sampleEnv [sampleContact1] none "AC1" "tok"
      okWorld).2.2 (by decide)).1

/-- C2 (code bug): with two unacknowledged contacts and a transport
error on the first send, the cycle makes only one send attempt and then
panics (`none`), so the attempt on the second contact never occurs.
When every send receives a response, all attempts occur, separated by
the 15-second pacing sleeps, and a non-2xx error is logged between a
send and its pacing sleep without stopping the batch. -/
theorem transport_panic_stops_batch :
    sendCount (checkContacts sampleEnv [sampleContact1, sampleContact2] none "AC1" "tok"
      downWorld).1 = 1
    ∧ (checkContacts sampleEnv [sampleContact1, sampleContact2] none "AC1" "tok" downWorld).2 =
        none
    ∧ (checkContacts sampleEnv [sampleContact1, sampleContact2] none "AC1" "tok" okWorld).1 =
        [Event.db (DbOp.select unackWhere),
         Event.log "Contact Alice is unacknowledged, notifying...",
         Event.httpPost (twilioURL "AC1") (formatMessage sampleEnv sampleContact1),
         Event.log "Response from sent message: queued",
         Event.sleep 15,
         Event.log "Contact Bob is unacknowledged, notifying...",
         Event.httpPost (twilioURL "AC1") (formatMessage sampleEnv sampleContact2),
         Event.log "Response from sent message: queued",
         Event.sleep 15,
         Event.log "Done sending contacts to sgs owner, returning to idle loop"] :=
  ⟨rfl, rfl, rfl⟩

/-- C3: when either messaging credential is empty, the cycle returns an
error and its trace contains no send attempt (zero messaging-API
calls). -/
theorem missing_credentials_abort_cycle (env : Env) (store : List Contact)
    (dbErr : Option String) (sid auth : String) (world : Contact → HttpOutcome)
    (h : sid = "" ∨ auth = "") :
    sendCount (checkContacts env store dbErr sid auth world).1 = 0
    ∧ ∃ e, (checkContacts env store dbErr sid auth world).2 = some (Except.error e) := by
  cases dbErr with
  | some e => exact ⟨rfl, e, rfl⟩
  | none =>
    have hcond : (sid == "" || auth == "") = true := by
      rcases h with h | h <;> simp [h]
    simp only [checkContacts, hcond]
    exact ⟨rfl, credErrMsg, rfl⟩

/-- C3 witness: with an empty account SID, the cycle with one
unacknowledged contact makes zero send attempts and errors. -/
theorem missing_credentials_abort_cycle_witness :
    sendCount (checkContacts sampleEnv [sampleContact1] none "" "tok" downWorld).1 = 0
    ∧ ∃ e, (checkContacts sampleEnv [sampleContact1] none "" "tok" downWorld).2 =
        some (Except.error e) :=
  missing_credentials_abort_cycle sampleEnv [sampleContact1] none "" "tok" downWorld (Or.inl rfl)

/-- C4 (code bug): a 2xx status yields success and any other status
yields the per-contact error built from the status line, with the
decoded response body never affecting the result; but a transport-level
error of `client.Do` is discarded (`resp, _ := client.Do(req)`) and the
nil response is dereferenced, so `sendToPOC` panics (`none`) instead of
returning a per-contact error. -/
theorem sendToPOC_transport_error_panics :
    (sendToPOC sampleEnv sampleContact1 "AC1" "tok"
      (HttpOutcome.transportError "connection refused")).2 = none
    ∧ ∀ (env : Env) (c : Contact) (sid auth st : String) (s : Nat) (bd : Except String String),
        (sendToPOC env c sid auth (HttpOutcome.response s st bd)).2 =
          some (if 200 ≤ s && s < 300 then Except.ok ()
                else Except.error ("Failed to send message to contact. Issue: " ++ st)) := by
  refine ⟨rfl, ?_⟩
  intro env c sid auth st s bd
  simp only [sendToPOC]
  split
  · rfl
  · rfl

/-- C5 (code bug): when `time.LoadLocation` fails the error is logged
but execution continues into `time.Date(..., nil)`, which panics, so
the tick crashes the process (`none`) instead of skipping the cycle. -/
theorem tz_load_failure_panics_tick :
    tick sampleEnv false ⟨2, 36000⟩ [sampleContact1] none "AC1" "tok" okWorld =
      ([Event.log "Failed to load EST location for date data, please contact webmaster"],
       none) := rfl

set_option maxRecDepth 100000 in
/-- C6: the message body is the fixed template with the contact's name,
email, phone and free-text message interpolated, plus the
acknowledgment instruction referencing the contact's id; formatting is
a pure function, so re-running it on an equal contact is byte-identical. -/
theorem formatMessage_fixed_template (c : Contact) :
    messageBody c =
      "We are being contacted by '" ++ (c.Name ++ ("' with email: '" ++ (c.Email ++
        ("' and phone number '" ++ (c.Phone ++ ("'for the following reason: '" ++
        (c.Message ++ ("'.\nPlease acknowledged receipt of this contact by replying '" ++
        (c.ID ++ "' to this message.")))))))))
    ∧ ∀ d : Contact, d = c → messageBody d = messageBody c := by
  refine ⟨?_, fun d hd => by rw [hd]⟩
  rfl

/-- C6 witness: the template evaluated at a concrete contact. -/
theorem formatMessage_fixed_template_witness :
    messageBody sampleContact1 =
      "We are being contacted by '" ++ ("Alice" ++ ("' with email: '" ++ ("alice@example.com" ++
        ("' and phone number '" ++ ("555-0001" ++ ("'for the following reason: '" ++
        ("leak in gutter" ++ ("'.\nPlease acknowledged receipt of this contact by replying '" ++
        ("id1" ++ "' to this message.")))))))))
    ∧ messageBody sampleContact1 = messageBody sampleContact1 :=
  ⟨(formatMessage_fixed_template sampleContact1).1,
   (formatMessage_fixed_template sampleContact1).2 sampleContact1 rfl⟩

/-- C7: the cycle's only database operation is the read-only `SELECT`
with `WHERE acknowledged = false`, and replaying the database operations
of any tick's trace leaves the table state unchanged. -/
theorem fetch_read_only_store_preserved (env : Env) (locOk : Bool) (t : LocalTime)
    (store : List Contact) (dbErr : Option String) (sid auth : String)
    (world : Contact → HttpOutcome) :
    dbOpsOf (checkContacts env store dbErr sid auth world).1 = [DbOp.select unackWhere]
    ∧ applyEvents (tick env locOk t store dbErr sid auth world).1 store = store := by
  refine ⟨checkContacts_dbOps env store dbErr sid auth world, ?_⟩
  unfold applyEvents
  rcases tick_dbOps env locOk t store dbErr sid auth world with h | h <;> rw [h] <;> rfl

/-- C8 (code bug): startup terminates the process exactly when the
initial connection fails, and a `checkContacts` error value is caught
and logged with the loop returning to idle; but a failed time-zone load
or a transport error during a send panics, so a fatal startup error is
not the sole condition that stops the process. -/
theorem startup_not_sole_stop_condition :
    startup (Except.ok ()) = some ()
    ∧ (∀ e, startup (Except.error e) = none)
    ∧ (tick sampleEnv true ⟨2, 36000⟩ [] (some "query failed") "AC1" "tok" okWorld).2 = some ()
    ∧ (tick sampleEnv true ⟨2, 36000⟩ [sampleContact1] none "AC1" "tok" downWorld).2 = none :=
  ⟨rfl, fun _ => rfl, rfl, rfl⟩

/-- C9: the business-hours window is inclusive at both boundaries: at
exactly 09:00:00 and exactly 15:00:00 on a weekday the gate permits the
cycle, because the source compares with the strict `Before`/`After`. -/
theorem scheduleGate_inclusive_boundaries (wd : Nat) (h0 : wd ≠ 0) (h6 : wd ≠ 6) :
    scheduleGate ⟨wd, startSec⟩ = true ∧ scheduleGate ⟨wd, endSec⟩ = true := by
  constructor <;> simp [scheduleGate, skipNotifications, startSec, endSec, h0, h6]

/-- C9 witness: the gate permits the cycle at exactly 09:00:00 and at
exactly 15:00:00 on a Monday. -/
theorem scheduleGate_inclusive_boundaries_witness :
    scheduleGate ⟨1, startSec⟩ = true ∧ scheduleGate ⟨1, endSec⟩ = true :=
  scheduleGate_inclusive_boundaries 1 (by decide) (by decide)

/-- C10: the first variant's `sendToPOC` returns nil unconditionally as
its first statement, so it performs no HTTP request and reports success
for every contact and every credential pair; on a 500 response the
second variant's `sendToPOC` returns an error, so the two functions are
not equivalent. -/
theorem variant1_sendToPOC_unconditional_success :
    (∀ (c : Contact) (sid auth : String) (o : HttpOutcome),
      sendToPOCv1 c sid auth o = ([], some (Except.ok ())))
    ∧ (sendToPOC sampleEnv sampleContact1 "AC1" "tok"
        (HttpOutcome.response 500 "500 Internal Server Error" (Except.ok "queued"))).2 =
        some (Except.error "Failed to send message to contact. Issue: 500 Internal Server Error")
    ∧ (sendToPOC sampleEnv sampleContact1 "AC1" "tok"
        (HttpOutcome.response 500 "500 Internal Server Error" (Except.ok "queued"))).2 ≠
      (sendToPOCv1 sampleContact1 "AC1" "tok"
        (HttpOutcome.response 500 "500 Internal Server Error" (Except.ok "queued"))).2 := by
  refine ⟨fun c sid auth o => rfl, rfl, ?_⟩
  intro h
  have h1 : (sendToPOC sampleEnv sampleContact1 "AC1" "tok"
      (HttpOutcome.response 500 "500 Internal Server Error" (Except.ok "queued"))).2 =
      some (Except.error "Failed to send message to contact. Issue: 500 Internal Server Error") :=
    rfl
  have h2 : (sendToPOCv1 sampleContact1 "AC1" "tok"
      (HttpOutcome.response 500 "500 Internal Server Error" (Except.ok "queued"))).2 =
      some (Except.ok ()) := rfl
  rw [h1, h2] at h
  simp at h

end SgsNotifier
